import Mathlib

/-!
Formal model of the ChainPulse webhook event-ingestion core
(`backend/src/handlers/webhook.handler.ts`): the in-memory activity
ledger and leaderboard store, the per-event handlers, rollback, the
Clarity binary-tuple decoder, the payload shape resolver, and the
change-notifier semantics, together with the properties claimed of them.

JavaScript numbers are modelled as `Int` (all quantities the handler
manipulates are integers), byte buffers as `List Nat`, JS `Map` and the
leaderboard as a function `String → Option LeaderboardEntry`, and JS
object literals used as metadata maps as association lists.
-/

namespace ChainPulse

/-- A metadata value stored in an activity record's free-form metadata
map: a number, a string, or JS `undefined` (an absent field value). -/
inductive MVal where
  | num (n : Int)
  | str (s : String)
  | undefined
deriving DecidableEq, Repr

/-- Activity record, from the `ActivityRecord` interface: the durable
unit of the ledger.  `timestamp` is the JS `Date` value in milliseconds
(the handlers construct `new Date(timestamp * 1000)`). -/
structure ActivityRecord where
  id : String
  user : String
  eventType : String
  points : Int
  fee : Int
  blockHeight : Int
  txHash : String
  timestamp : Int
  metadata : List (String × MVal)
deriving DecidableEq, Repr

/-- Leaderboard entry, from the `LeaderboardEntry` interface.
`lastActive` is a JS `Date` in milliseconds. -/
structure LeaderboardEntry where
  user : String
  totalPoints : Int
  totalPulses : Int
  currentStreak : Int
  longestStreak : Int
  tier : String
  lastActive : Int
deriving DecidableEq, Repr

/-- The mutable state of the `WebhookHandler` class: the activity log,
the leaderboard map, and the two running counters. -/
structure HandlerState where
  activities : List ActivityRecord
  leaderboard : String → Option LeaderboardEntry
  totalFees : Int
  totalTransactions : Int

/-- The state of a freshly constructed `WebhookHandler`. -/
def initialState : HandlerState :=
  { activities := []
    leaderboard := fun _ => none
    totalFees := 0
    totalTransactions := 0 }

/-- Point update of a `Map`-backed leaderboard (`Map.prototype.set`). -/
def setEntry (m : String → Option LeaderboardEntry) (u : String)
    (e : LeaderboardEntry) : String → Option LeaderboardEntry :=
  fun v => if v = u then some e else m v

/-- `pulse-sent` print-event payload (`PulseEvent` interface). -/
structure PulseEvent where
  user : String
  points : Int
  streak : Int
  fee : Int
  total_pulses : Int
deriving DecidableEq, Repr

/-- `boost-activated` print-event payload (`BoostEvent` interface). -/
structure BoostEvent where
  user : String
  points : Int
  fee : Int
  total_boosts : Int
deriving DecidableEq, Repr

/-- `daily-checkin` print-event payload (`CheckinEvent` interface). -/
structure CheckinEvent where
  user : String
  day : Int
  points : Int
deriving DecidableEq, Repr

/-- `mega-pulse` print-event payload (`MegaPulseEvent` interface). -/
structure MegaPulseEvent where
  user : String
  multiplier : Int
  points : Int
  fee : Int
deriving DecidableEq, Repr

/-- `challenge-completed` print-event payload (`ChallengeEvent`
interface). -/
structure ChallengeEvent where
  user : String
  challenge_id : Int
  points : Int
  fee : Int
deriving DecidableEq, Repr

/-- `reward-claimed` print-event payload (`RewardEvent` interface). -/
structure RewardEvent where
  user : String
  reward_id : Int
  points_spent : Int
  stx_value : Int
  new_tier : String
deriving DecidableEq, Repr

/-- `tier-achieved` print-event payload (`TierEvent` interface). -/
structure TierEvent where
  user : String
  tier : String
  total_points : Int
  previous_tier : String
deriving DecidableEq, Repr

/-- Data of an NFT mint event as read by `processNFTEvent`
(`data.recipient`, `data.asset_identifier`; either may be absent). -/
structure NFTData where
  recipient : Option String
  asset_identifier : Option String
deriving DecidableEq, Repr

/-- Data of an STX transfer event (`STXTransferEvent` interface). -/
structure STXTransferData where
  sender : String
  recipient : String
  amount : Int
  block_height : Int
deriving DecidableEq, Repr

/-- JS `x || 'default'` on a possibly-absent string: an absent or empty
(falsy) string yields the default. -/
def jsStrOr (o : Option String) (dflt : String) : String :=
  match o with
  | some s => if s = "" then dflt else s
  | none => dflt

/-- Metadata value of a possibly-absent string field. -/
def mvalOfOpt (o : Option String) : MVal :=
  match o with
  | some s => .str s
  | none => .undefined

/-- `updateLeaderboard(user, points, pulses, streak)`: fetches or lazily
creates the user's entry (zeroed fields, tier `"none"`), adds points and
pulses, refreshes `lastActive` to the current wall clock `now`, applies
the streak update when `streak > 0`, and recomputes the tier from the
fixed thresholds (with no `else` branch: below 100 points the tier field
is left as it was). -/
def updateLeaderboard (now : Int) (user : String) (points pulses streak : Int)
    (s : HandlerState) : HandlerState :=
  let entry :=
    match s.leaderboard user with
    | some e => e
    | none =>
      { user := user, totalPoints := 0, totalPulses := 0, currentStreak := 0
        longestStreak := 0, tier := "none", lastActive := now }
  let e1 := { entry with
    totalPoints := entry.totalPoints + points
    totalPulses := entry.totalPulses + pulses
    lastActive := now }
  let e2 :=
    if streak > 0 then
      { e1 with
        currentStreak := streak
        longestStreak := if streak > e1.longestStreak then streak else e1.longestStreak }
    else e1
  let e3 :=
    if e2.totalPoints ≥ 5000 then { e2 with tier := "platinum" }
    else if e2.totalPoints ≥ 1000 then { e2 with tier := "gold" }
    else if e2.totalPoints ≥ 500 then { e2 with tier := "silver" }
    else if e2.totalPoints ≥ 100 then { e2 with tier := "bronze" }
    else e2
  { s with leaderboard := setEntry s.leaderboard user e3 }

/-- `handlePulseEvent`: append the pulse activity record, add the fee to
the running total, and apply the leaderboard update. -/
def handlePulseEvent (now : Int) (e : PulseEvent) (txHash : String)
    (blockHeight timestamp : Int) (s : HandlerState) : HandlerState :=
  let activity : ActivityRecord :=
    { id := txHash ++ "-pulse"
      user := e.user
      eventType := "pulse"
      points := e.points
      fee := e.fee
      blockHeight := blockHeight
      txHash := txHash
      timestamp := timestamp * 1000
      metadata := [("streak", .num e.streak), ("totalPulses", .num e.total_pulses)] }
  let s1 := { s with activities := s.activities ++ [activity], totalFees := s.totalFees + e.fee }
  updateLeaderboard now e.user e.points 1 e.streak s1

/-- `handleBoostEvent`: append the boost record, add the fee, update the
leaderboard with no pulse or streak change. -/
def handleBoostEvent (now : Int) (e : BoostEvent) (txHash : String)
    (blockHeight timestamp : Int) (s : HandlerState) : HandlerState :=
  let activity : ActivityRecord :=
    { id := txHash ++ "-boost"
      user := e.user
      eventType := "boost"
      points := e.points
      fee := e.fee
      blockHeight := blockHeight
      txHash := txHash
      timestamp := timestamp * 1000
      metadata := [("totalBoosts", .num e.total_boosts)] }
  let s1 := { s with activities := s.activities ++ [activity], totalFees := s.totalFees + e.fee }
  updateLeaderboard now e.user e.points 0 0 s1

/-- `handleCheckinEvent`: append the check-in record (fee 0, no running
fee-total change) and update the leaderboard. -/
def handleCheckinEvent (now : Int) (e : CheckinEvent) (txHash : String)
    (blockHeight timestamp : Int) (s : HandlerState) : HandlerState :=
  let activity : ActivityRecord :=
    { id := txHash ++ "-checkin"
      user := e.user
      eventType := "checkin"
      points := e.points
      fee := 0
      blockHeight := blockHeight
      txHash := txHash
      timestamp := timestamp * 1000
      metadata := [("day", .num e.day)] }
  let s1 := { s with activities := s.activities ++ [activity] }
  updateLeaderboard now e.user e.points 0 0 s1

/-- `handleMegaPulseEvent`: append the mega-pulse record, add the fee,
update the leaderboard counting `multiplier` pulses. -/
def handleMegaPulseEvent (now : Int) (e : MegaPulseEvent) (txHash : String)
    (blockHeight timestamp : Int) (s : HandlerState) : HandlerState :=
  let activity : ActivityRecord :=
    { id := txHash ++ "-mega"
      user := e.user
      eventType := "mega-pulse"
      points := e.points
      fee := e.fee
      blockHeight := blockHeight
      txHash := txHash
      timestamp := timestamp * 1000
      metadata := [("multiplier", .num e.multiplier)] }
  let s1 := { s with activities := s.activities ++ [activity], totalFees := s.totalFees + e.fee }
  updateLeaderboard now e.user e.points e.multiplier 0 s1

/-- `handleChallengeEvent`: append the challenge record, add the fee,
update the leaderboard. -/
def handleChallengeEvent (now : Int) (e : ChallengeEvent) (txHash : String)
    (blockHeight timestamp : Int) (s : HandlerState) : HandlerState :=
  let activity : ActivityRecord :=
    { id := txHash ++ "-challenge"
      user := e.user
      eventType := "challenge"
      points := e.points
      fee := e.fee
      blockHeight := blockHeight
      txHash := txHash
      timestamp := timestamp * 1000
      metadata := [("challengeId", .num e.challenge_id)] }
  let s1 := { s with activities := s.activities ++ [activity], totalFees := s.totalFees + e.fee }
  updateLeaderboard now e.user e.points 0 0 s1

/-- `handleRewardEvent`: append a reward record with the NEGATIVE of the
spent points and fee 0; in the leaderboard only overwrite the tier label
of an already-existing entry (no lazy creation, no point subtraction,
no fee-total change). -/
def handleRewardEvent (e : RewardEvent) (txHash : String)
    (blockHeight timestamp : Int) (s : HandlerState) : HandlerState :=
  let activity : ActivityRecord :=
    { id := txHash ++ "-reward"
      user := e.user
      eventType := "reward"
      points := -e.points_spent
      fee := 0
      blockHeight := blockHeight
      txHash := txHash
      timestamp := timestamp * 1000
      metadata := [("rewardId", .num e.reward_id), ("stxValue", .num e.stx_value),
                   ("newTier", .str e.new_tier)] }
  let s1 := { s with activities := s.activities ++ [activity] }
  match s1.leaderboard e.user with
  | some entry =>
    { s1 with leaderboard := setEntry s1.leaderboard e.user { entry with tier := e.new_tier } }
  | none => s1

/-- `handleTierEvent`: append a zero-point, zero-fee tier record and
overwrite the tier label of an already-existing leaderboard entry. -/
def handleTierEvent (e : TierEvent) (txHash : String)
    (blockHeight timestamp : Int) (s : HandlerState) : HandlerState :=
  let activity : ActivityRecord :=
    { id := txHash ++ "-tier"
      user := e.user
      eventType := "tier"
      points := 0
      fee := 0
      blockHeight := blockHeight
      txHash := txHash
      timestamp := timestamp * 1000
      metadata := [("tier", .str e.tier), ("previousTier", .str e.previous_tier),
                   ("totalPoints", .num e.total_points)] }
  let s1 := { s with activities := s.activities ++ [activity] }
  match s1.leaderboard e.user with
  | some entry =>
    { s1 with leaderboard := setEntry s1.leaderboard e.user { entry with tier := e.tier } }
  | none => s1

/-- `processNFTEvent`: append a `badge-minted` record with zero points
and fee; the user falls back to `"unknown"` when the recipient is absent
or falsy. -/
def processNFTEvent (d : NFTData) (txHash : String)
    (blockHeight timestamp : Int) (s : HandlerState) : HandlerState :=
  let activity : ActivityRecord :=
    { id := txHash ++ "-nft"
      user := jsStrOr d.recipient "unknown"
      eventType := "badge-minted"
      points := 0
      fee := 0
      blockHeight := blockHeight
      txHash := txHash
      timestamp := timestamp * 1000
      metadata := [("tokenId", mvalOfOpt d.asset_identifier),
                   ("recipient", mvalOfOpt d.recipient)] }
  { s with activities := s.activities ++ [activity] }

/-- `processSTXTransfer`: append an `stx-transfer` record whose fee
field is the transferred amount.  Note the running fee total and the
transaction counter are NOT touched here. -/
def processSTXTransfer (d : STXTransferData) (txHash : String)
    (blockHeight timestamp : Int) (s : HandlerState) : HandlerState :=
  let activity : ActivityRecord :=
    { id := txHash ++ "-stx"
      user := d.sender
      eventType := "stx-transfer"
      points := 0
      fee := d.amount
      blockHeight := blockHeight
      txHash := txHash
      timestamp := timestamp * 1000
      metadata := [("sender", .str d.sender), ("recipient", .str d.recipient),
                   ("amount", .num d.amount)] }
  { s with activities := s.activities ++ [activity] }

/-- A rolled-back block identifier (`rollback[i].block_identifier`). -/
structure RollbackBlock where
  index : Int
  hash : String
deriving DecidableEq, Repr

/-- `handleRollback(rollback)`: for each rolled-back block, filter out
of the activity log every record whose block height equals that block's
index.  Leaderboard entries and the two counters are not touched. -/
def handleRollback (rollback : List RollbackBlock) (s : HandlerState) : HandlerState :=
  { s with
    activities := rollback.foldl
      (fun acts b => acts.filter (fun a => a.blockHeight ≠ b.index)) s.activities }

/-- The JS `arr.slice(-limit)` applied by `getActivities`: for a
positive limit it takes the last `min limit length` elements; for limit
0 the start index `-0` is `0`, so the WHOLE array is taken. -/
def jsSliceLast (xs : List ActivityRecord) (limit : Nat) : List ActivityRecord :=
  if limit = 0 then xs else xs.drop (xs.length - limit)

/-- `getActivities(limit)`: `this.activities.slice(-limit).reverse()`. -/
def getActivities (activities : List ActivityRecord) (limit : Nat) : List ActivityRecord :=
  (jsSliceLast activities limit).reverse

/-- The tier label determined by a cumulative point total per the fixed
thresholds of `updateLeaderboard` (with `"none"` below 100). -/
def tierOfPoints (t : Int) : String :=
  if t ≥ 5000 then "platinum"
  else if t ≥ 1000 then "gold"
  else if t ≥ 500 then "silver"
  else if t ≥ 100 then "bronze"
  else "none"

/-- Byte-wise string decode used for tuple keys and string values
(`buffer.slice(a, b).toString('utf-8')`); keys and ASCII values in this
encoding are single-byte code points, for which this agrees with UTF-8. -/
def bytesToString (bs : List Nat) : String :=
  String.mk (bs.map Char.ofNat)

/-- `buffer.readUInt16BE(off)`: two big-endian bytes. -/
def readU16 (buf : List Nat) (off : Nat) : Nat :=
  256 * buf.getD off 0 + buf.getD (off + 1) 0

/-- `buffer.readBigUInt64BE(off)`: EIGHT big-endian bytes starting at
`off` — on a 16-byte integer field this is its most-significant half. -/
def readU64 (buf : List Nat) (off : Nat) : Nat :=
  ((((((buf.getD off 0 * 256 + buf.getD (off + 1) 0) * 256 + buf.getD (off + 2) 0) * 256
    + buf.getD (off + 3) 0) * 256 + buf.getD (off + 4) 0) * 256 + buf.getD (off + 5) 0) * 256
    + buf.getD (off + 6) 0) * 256 + buf.getD (off + 7) 0

/-- `buffer.slice(off, off + len)` as a byte list. -/
def sliceBytes (buf : List Nat) (off len : Nat) : List Nat :=
  (buf.drop off).take len

/-- One lowercase hex digit. -/
def hexDigitChar (n : Nat) : Char :=
  if n < 10 then Char.ofNat (48 + n) else Char.ofNat (87 + n)

/-- A byte as two lowercase hex digits (`toString('hex')`). -/
def byteToHex (b : Nat) : String :=
  String.mk [hexDigitChar (b / 16 % 16), hexDigitChar (b % 16)]

/-- A byte list as a lowercase hex string. -/
def bytesToHex (bs : List Nat) : String :=
  String.join (bs.map byteToHex)

/-- JS object-assignment semantics of `result[key] = value`: overwrite
an existing key's value in place, else append the pair. -/
def objSet (m : List (String × String)) (k v : String) : List (String × String) :=
  if m.any (fun p => p.1 = k) then
    m.map (fun p => if p.1 = k then (k, v) else p)
  else m ++ [(k, v)]

/-- One iteration of the `parseClarityTuple` field walk at `off`:
`none` at each `break` of the source loop (key-length field, key bytes,
value-type byte, or value bytes running past the buffer end, or an
unrecognized value-type tag), and `some (key, value, next-offset)` at
each successful field. -/
def parseField (buf : List Nat) (off : Nat) : Option (String × String × Nat) :=
  if off + 2 > buf.length then none
  else
    let keyLen := readU16 buf off
    let o1 := off + 2
    if o1 + keyLen > buf.length then none
    else
      let key := bytesToString (sliceBytes buf o1 keyLen)
      let o2 := o1 + keyLen
      if o2 ≥ buf.length then none
      else
        let valueType := buf.getD o2 0
        let o3 := o2 + 1
        if valueType = 0x00 ∨ valueType = 0x01 then
          if o3 + 16 > buf.length then none
          else some (key, toString (readU64 buf o3), o3 + 16)
        else if valueType = 0x06 ∨ valueType = 0x07 then
          if o3 + 2 > buf.length then none
          else
            let strLen := readU16 buf o3
            let o4 := o3 + 2
            if o4 + strLen > buf.length then none
            else some (key, bytesToString (sliceBytes buf o4 strLen), o4 + strLen)
        else if valueType = 0x09 then
          if o3 + 21 > buf.length then none
          else some (key, "0x" ++ bytesToHex (sliceBytes buf o3 21), o3 + 21)
        else none

/-- The `while (offset < buffer.length - 1)` walk of
`parseClarityTuple`, with fuel bounding the (finite) iteration count;
every field advances the offset by at least five bytes, so
`buf.length + 1` fuel never runs out. -/
def parseTupleLoop (buf : List Nat) : Nat → Nat → List (String × String) → List (String × String)
  | 0, _, acc => acc
  | fuel + 1, off, acc =>
    if off < buf.length - 1 then
      match parseField buf off with
      | none => acc
      | some (k, v, off2) => parseTupleLoop buf fuel off2 (objSet acc k v)
    else acc

/-- `parseClarityTuple(buffer)`: skip the type byte (0x0c) and the
2-byte declared length, then walk the key/value fields, returning the
accumulated object (the `catch` branch is unreachable in this model
because every read is bounds-checked first). -/
def parseClarityTuple (buf : List Nat) : List (String × String) :=
  parseTupleLoop buf (buf.length + 1) 3 []

/-- Strip an optional `0x` prefix (`hexValue.startsWith('0x')` tests
whether the first two characters are `0` and `x`). -/
def strip0x (s : String) : String :=
  if s.data.take 2 = ['0', 'x'] then s.drop 2 else s

/-- The value of one hex digit, or `none` for a non-hex character. -/
def hexDigitVal (c : Char) : Option Nat :=
  if '0' ≤ c ∧ c ≤ '9' then some (c.toNat - 48)
  else if 'a' ≤ c ∧ c ≤ 'f' then some (c.toNat - 87)
  else if 'A' ≤ c ∧ c ≤ 'F' then some (c.toNat - 55)
  else none

/-- `Buffer.from(str, 'hex')` on a character list: decode complete
valid hex pairs from the start, stopping (without error) at the first
invalid character or odd trailing digit. -/
def hexDecodeChars : List Char → List Nat
  | c1 :: c2 :: rest =>
    match hexDigitVal c1, hexDigitVal c2 with
    | some h, some l => (16 * h + l) :: hexDecodeChars rest
    | _, _ => []
  | _ => []

/-- `Buffer.from(str, 'hex')` as a byte list. -/
def hexDecode (s : String) : List Nat :=
  hexDecodeChars s.data

/-- A JSON-like value, modelling the dynamic values JavaScript passes
around (`JSON.parse` results and webhook payload objects). -/
inductive JVal where
  | null
  | bool (b : Bool)
  | num (n : Int)
  | str (s : String)
  | arr (xs : List JVal)
  | obj (fs : List (String × JVal))

/-- Result of `decodeClarityValue`: a successfully parsed JSON value, a
parsed binary tuple, or the raw-hex fallback object. -/
inductive DecodeResult where
  | json (v : JVal)
  | tuple (m : List (String × String))
  | raw (s : String)

/-- `decodeClarityValue(hexValue)`: strip an optional `0x`, decode the
hex to bytes, first try to read them as UTF-8 JSON (the platform
`JSON.parse` composed with the UTF-8 decode is modelled as the abstract
parameter `tryJson`, `none` meaning a parse failure), then fall back to
the binary tuple parser when the first byte is the tuple marker 0x0c,
and otherwise return the raw fallback carrying the ORIGINAL input
string.  Every step is total, so the function never throws. -/
def decodeClarityValue (tryJson : List Nat → Option JVal) (hexValue : String) : DecodeResult :=
  let hex := strip0x hexValue
  let bytes := hexDecode hex
  match tryJson bytes with
  | some v => .json v
  | none =>
    if bytes.length > 0 ∧ bytes.getD 0 0 = 0x0c then .tuple (parseClarityTuple bytes)
    else .raw hexValue

/-- Field lookup on a JS object value; `none` is `undefined` (also for
access on a non-object, matching the optional chaining the source uses). -/
def JVal.getField : JVal → String → Option JVal
  | .obj fs, k => (fs.find? (fun p => p.1 = k)).map (fun p => p.2)
  | _, _ => none

/-- Optional-chained field access `v?.k`. -/
def jsGet (v : Option JVal) (k : String) : Option JVal :=
  v.bind (fun w => w.getField k)

/-- JS truthiness of a value. -/
def truthyV : JVal → Bool
  | .null => false
  | .bool b => b
  | .num n => n ≠ 0
  | .str s => s ≠ ""
  | .arr _ => true
  | .obj _ => true

/-- JS truthiness of a possibly-undefined value. -/
def truthy (v : Option JVal) : Bool :=
  match v with
  | some w => truthyV w
  | none => false

/-- `Array.isArray(v)` combined with extraction of the element list. -/
def jsArray (v : Option JVal) : Option (List JVal) :=
  match v with
  | some (.arr xs) => some xs
  | _ => none

/-- JS `a || b` where `a` may be undefined: `a` when truthy, else `b`. -/
def jsOrV (a : Option JVal) (b : JVal) : JVal :=
  match a with
  | some v => if truthyV v then v else b
  | none => b

/-- `typeof v === 'object'` (true for objects, arrays and null). -/
def jsTypeofObject : JVal → Bool
  | .obj _ => true
  | .arr _ => true
  | .null => true
  | _ => false

/-- The synthetic block built by `processPayload` when the `event`
object carries direct transaction data (shape rule 4): block identifier
from `event.block_identifier` or `event.block` (wrapped when not an
object) defaulting to index 0 and empty hash, timestamp from
`event.timestamp` or `event.block_timestamp` defaulting to the
ingestion wall clock `now`, and the single transaction being
`event.transaction` or the event itself. -/
def synthBlockFromEventTx (now : Int) (ev : JVal) : JVal :=
  let blockInfo := jsOrV (jsGet (some ev) "block_identifier")
    (jsOrV (jsGet (some ev) "block") (.obj [("index", .num 0), ("hash", .str "")]))
  JVal.obj
    [("block_identifier",
      if jsTypeofObject blockInfo then blockInfo
      else .obj [("index", blockInfo), ("hash", .str "")]),
     ("timestamp", jsOrV (jsGet (some ev) "timestamp")
        (jsOrV (jsGet (some ev) "block_timestamp") (.num now))),
     ("transactions", .arr [jsOrV (jsGet (some ev) "transaction") ev])]

/-- The synthetic block built by `processPayload` from a nested
`event.contract_log` record (shape rule 5): one transaction whose hash
is the contract log's `tx_id` (empty if absent) and whose single
receipt event is a `contract_log`-typed event carrying the raw record. -/
def synthBlockFromContractLog (now : Int) (contractLog : JVal) : JVal :=
  JVal.obj
    [("block_identifier", jsOrV (jsGet (some contractLog) "block_identifier")
        (.obj [("index", .num 0), ("hash", .str "")])),
     ("timestamp", jsOrV (jsGet (some contractLog) "timestamp") (.num now)),
     ("transactions", .arr
       [JVal.obj
         [("transaction_identifier", .obj [("hash", jsOrV (jsGet (some contractLog) "tx_id") (.str ""))]),
          ("metadata", .obj
            [("receipt", .obj
              [("events", .arr
                [JVal.obj [("type", .str "contract_log"), ("data", contractLog)]])])])]])]

/-- The `applyBlocks` shape resolution of `processPayload`: the
if/else-if chain over the payload, in source order — root-level `apply`
array, `event.apply` array, `event.blocks` array, a truthy object-typed
`event` carrying direct transaction data, a nested `event.contract_log`,
and finally no blocks at all. -/
def resolveApplyBlocks (now : Int) (p : JVal) : List JVal :=
  match jsArray (jsGet (some p) "apply") with
  | some xs => xs
  | none =>
    match jsArray (jsGet (jsGet (some p) "event") "apply") with
    | some xs => xs
    | none =>
      match jsArray (jsGet (jsGet (some p) "event") "blocks") with
      | some xs => xs
      | none =>
        match jsGet (some p) "event" with
        | some ev =>
          if truthyV ev && jsTypeofObject ev then
            if truthy (jsGet (some ev) "transaction_identifier")
                || truthy (jsGet (some ev) "transaction")
                || truthy (jsGet (some ev) "metadata") then
              [synthBlockFromEventTx now ev]
            else if truthy (jsGet (some ev) "contract_log") then
              [synthBlockFromContractLog now (jsOrV (jsGet (some ev) "contract_log") .null)]
            else []
          else []
        | none => []

/-- Shape-resolution rule 1 of the documented policy: a top-level
ordered list of apply-blocks. -/
def shapeRule1 (p : JVal) : Option (List JVal) :=
  jsArray (jsGet (some p) "apply")

/-- Shape-resolution rule 2: a nested `event.apply` ordered list. -/
def shapeRule2 (p : JVal) : Option (List JVal) :=
  jsArray (jsGet (jsGet (some p) "event") "apply")

/-- Shape-resolution rule 3: a nested `event.blocks` ordered list. -/
def shapeRule3 (p : JVal) : Option (List JVal) :=
  jsArray (jsGet (jsGet (some p) "event") "blocks")

/-- Shape-resolution rule 4: a truthy object-typed `event` carrying
direct transaction data, wrapped as a single synthetic block. -/
def shapeRule4 (now : Int) (p : JVal) : Option (List JVal) :=
  (jsGet (some p) "event").bind (fun ev =>
    if (truthyV ev && jsTypeofObject ev)
        && (truthy (jsGet (some ev) "transaction_identifier")
            || truthy (jsGet (some ev) "transaction")
            || truthy (jsGet (some ev) "metadata")) then
      some [synthBlockFromEventTx now ev]
    else none)

/-- Shape-resolution rule 5: a truthy object-typed `event` carrying a
nested `contract_log` record, wrapped as a single synthetic block. -/
def shapeRule5 (now : Int) (p : JVal) : Option (List JVal) :=
  (jsGet (some p) "event").bind (fun ev =>
    if (truthyV ev && jsTypeofObject ev) && truthy (jsGet (some ev) "contract_log") then
      some [synthBlockFromContractLog now (jsOrV (jsGet (some ev) "contract_log") .null)]
    else none)

/-- A notification subscriber: a callback that transforms the outside
world `σ` and may throw (`some` error). -/
structure Subscriber (σ ε : Type) where
  run : σ → σ × Option ε

/-- Node `EventEmitter.prototype.emit` semantics for the handler's
`this.emit(...)` calls: listeners are invoked synchronously in
subscription order; an exception thrown by a listener propagates out of
`emit` immediately, so the remaining listeners are NOT invoked. -/
def emitAll {σ ε : Type} : List (Subscriber σ ε) → σ → σ × Option ε
  | [], w => (w, none)
  | s :: rest, w =>
    match s.run w with
    | (w2, none) => emitAll rest w2
    | (w2, some e) => (w2, some e)

/-- A subscriber that records its label in a delivery log and returns
normally. -/
def loggingSubscriber (label : String) : Subscriber (List String) String :=
  ⟨fun w => (w ++ [label], none)⟩

/-- A subscriber that records its label in the delivery log and then
throws the given error. -/
def throwingSubscriber (label : String) (err : String) : Subscriber (List String) String :=
  ⟨fun w => (w ++ [label], some err)⟩

/-- `handlePulseEvent` including its trailing `this.emit('pulse', ...)`
call: the store mutation happens first, then the subscribers run; the
possible subscriber exception is returned alongside. -/
def handlePulseEventEmit {σ : Type} (subs : List (Subscriber σ String)) (now : Int)
    (e : PulseEvent) (txHash : String) (blockHeight timestamp : Int)
    (s : HandlerState) (w : σ) : HandlerState × σ × Option String :=
  let s2 := handlePulseEvent now e txHash blockHeight timestamp s
  let r := emitAll subs w
  (s2, r.1, r.2)

/-- The `processPrintEvent` dispatch layer around a pulse event: its
`try`/`catch` swallows any exception escaping the handler (including
one thrown by a notification subscriber), keeping the already-mutated
store state. -/
def processPrintEventPulse {σ : Type} (subs : List (Subscriber σ String)) (now : Int)
    (e : PulseEvent) (txHash : String) (blockHeight timestamp : Int)
    (s : HandlerState) (w : σ) : HandlerState × σ :=
  let r := handlePulseEventEmit subs now e txHash blockHeight timestamp s w
  (r.1, r.2.1)

/-! ## Properties -/

lemma updateLeaderboard_totalFees (now : Int) (u : String) (p q r : Int) (s : HandlerState) :
    (updateLeaderboard now u p q r s).totalFees = s.totalFees := rfl

lemma updateLeaderboard_totalTransactions (now : Int) (u : String) (p q r : Int)
    (s : HandlerState) : (updateLeaderboard now u p q r s).totalTransactions =
    s.totalTransactions := rfl

lemma updateLeaderboard_activities (now : Int) (u : String) (p q r : Int) (s : HandlerState) :
    (updateLeaderboard now u p q r s).activities = s.activities := rfl

/-- The hex encoding (as bytes) of a tuple with one unsigned-integer
field `field1` of value 42 and one ASCII field `field2` of value
`"pulse"`, laid out per the documented format: marker byte 0x0c, 2-byte
declared length, then per field a 2-byte big-endian key length, the key
bytes, a 1-byte value-type tag (0x01 unsigned integer, 0x06 ASCII
string), a 16-byte big-endian integer value, and a 2-byte-length-prefixed
string value. -/
def c1TupleBytes : List Nat :=
  [0x0c, 0x00, 0x02,
   0x00, 0x06, 0x66, 0x69, 0x65, 0x6c, 0x64, 0x31,
   0x01, 0x00, 0x00, 0x00, 0x00, 0x00, 0x00, 0x00, 0x00,
   0x00, 0x00, 0x00, 0x00, 0x00, 0x00, 0x00, 0x2a,
   0x00, 0x06, 0x66, 0x69, 0x65, 0x6c, 0x64, 0x32,
   0x06, 0x00, 0x05, 0x70, 0x75, 0x6c, 0x73, 0x65]

/-- C1: decoding the documented-layout tuple with unsigned-integer
field `field1 = 42` and ASCII field `field2 = "pulse"` does NOT yield
`field1 = "42"`: `parseClarityTuple` reads the 16-byte big-endian value
with `readBigUInt64BE` at its start, i.e. its MOST-significant eight
bytes, so every value below 2^64 decodes to `"0"`.  The low 64 bits are
not preserved, contradicting the claimed round-trip. -/
theorem c1_uint42_decodes_as_zero :
    parseClarityTuple c1TupleBytes = [("field1", "0"), ("field2", "pulse")]
    ∧ ("field1", "42") ∉ parseClarityTuple c1TupleBytes := by
  constructor
  · rfl
  · decide

/-- C2 counterexample: appending an stx-transfer record carrying a
nonzero fee (5, the transferred amount) leaves the running total-fees
and total-transactions counters unchanged, contradicting the claim that
every appended nonzero-fee record updates both counters. -/
theorem c2_counterexample_stx_fee_not_counted :
    ((processSTXTransfer ⟨"alice", "fee-receiver", 5, 100⟩ "tx1" 100 0 initialState).activities.map
        (fun r => r.fee)) = [5]
    ∧ (processSTXTransfer ⟨"alice", "fee-receiver", 5, 100⟩ "tx1" 100 0 initialState).totalFees = 0
    ∧ (processSTXTransfer ⟨"alice", "fee-receiver", 5, 100⟩ "tx1" 100 0
        initialState).totalTransactions = 0 :=
  ⟨rfl, rfl, rfl⟩

/-- C2 (amended): pulse, boost, mega-pulse and challenge appends add
the record's fee to the running total-fees counter (unconditionally, so
in particular when it is nonzero); checkin, reward, tier and
badge-minted appends carry a zero fee and leave the counter unchanged;
an stx-transfer append carries a fee equal to the transferred amount
but does NOT update total-fees; and no append updates the
total-transactions counter (payload processing increments it once per
transaction, independently of fees). -/
theorem c2_amended_fee_counter_by_event_kind (now : Int) (txHash : String)
    (blockHeight timestamp : Int) (s : HandlerState) :
    (∀ e : PulseEvent,
      (handlePulseEvent now e txHash blockHeight timestamp s).totalFees = s.totalFees + e.fee
      ∧ (handlePulseEvent now e txHash blockHeight timestamp s).totalTransactions
          = s.totalTransactions)
    ∧ (∀ e : BoostEvent,
      (handleBoostEvent now e txHash blockHeight timestamp s).totalFees = s.totalFees + e.fee
      ∧ (handleBoostEvent now e txHash blockHeight timestamp s).totalTransactions
          = s.totalTransactions)
    ∧ (∀ e : MegaPulseEvent,
      (handleMegaPulseEvent now e txHash blockHeight timestamp s).totalFees = s.totalFees + e.fee
      ∧ (handleMegaPulseEvent now e txHash blockHeight timestamp s).totalTransactions
          = s.totalTransactions)
    ∧ (∀ e : ChallengeEvent,
      (handleChallengeEvent now e txHash blockHeight timestamp s).totalFees = s.totalFees + e.fee
      ∧ (handleChallengeEvent now e txHash blockHeight timestamp s).totalTransactions
          = s.totalTransactions)
    ∧ (∀ e : CheckinEvent,
      ((handleCheckinEvent now e txHash blockHeight timestamp s).activities.map (fun r => r.fee))
          = s.activities.map (fun r => r.fee) ++ [0]
      ∧ (handleCheckinEvent now e txHash blockHeight timestamp s).totalFees = s.totalFees
      ∧ (handleCheckinEvent now e txHash blockHeight timestamp s).totalTransactions
          = s.totalTransactions)
    ∧ (∀ e : RewardEvent,
      ((handleRewardEvent e txHash blockHeight timestamp s).activities.map (fun r => r.fee))
          = s.activities.map (fun r => r.fee) ++ [0]
      ∧ (handleRewardEvent e txHash blockHeight timestamp s).totalFees = s.totalFees
      ∧ (handleRewardEvent e txHash blockHeight timestamp s).totalTransactions
          = s.totalTransactions)
    ∧ (∀ e : TierEvent,
      ((handleTierEvent e txHash blockHeight timestamp s).activities.map (fun r => r.fee))
          = s.activities.map (fun r => r.fee) ++ [0]
      ∧ (handleTierEvent e txHash blockHeight timestamp s).totalFees = s.totalFees
      ∧ (handleTierEvent e txHash blockHeight timestamp s).totalTransactions
          = s.totalTransactions)
    ∧ (∀ d : NFTData,
      ((processNFTEvent d txHash blockHeight timestamp s).activities.map (fun r => r.fee))
          = s.activities.map (fun r => r.fee) ++ [0]
      ∧ (processNFTEvent d txHash blockHeight timestamp s).totalFees = s.totalFees
      ∧ (processNFTEvent d txHash blockHeight timestamp s).totalTransactions
          = s.totalTransactions)
    ∧ (∀ d : STXTransferData,
      ((processSTXTransfer d txHash blockHeight timestamp s).activities.map (fun r => r.fee))
          = s.activities.map (fun r => r.fee) ++ [d.amount]
      ∧ (processSTXTransfer d txHash blockHeight timestamp s).totalFees = s.totalFees
      ∧ (processSTXTransfer d txHash blockHeight timestamp s).totalTransactions
          = s.totalTransactions) := by
  refine ⟨fun e => ⟨rfl, rfl⟩, fun e => ⟨rfl, rfl⟩, fun e => ⟨rfl, rfl⟩, fun e => ⟨rfl, rfl⟩,
    fun e => ⟨by simp [handleCheckinEvent, updateLeaderboard_activities], rfl, rfl⟩,
    fun e => ?_, fun e => ?_,
    fun d => ⟨by simp [processNFTEvent], rfl, rfl⟩,
    fun d => ⟨by simp [processSTXTransfer], rfl, rfl⟩⟩
  · unfold handleRewardEvent
    rcases h : s.leaderboard e.user with _ | entry <;> simp [h]
  · unfold handleTierEvent
    rcases h : s.leaderboard e.user with _ | entry <;> simp [h]

lemma foldl_filter_eq_filter_all (rollback : List RollbackBlock) :
    ∀ acts : List ActivityRecord,
      rollback.foldl (fun acts b => acts.filter (fun a => a.blockHeight ≠ b.index)) acts
        = acts.filter (fun a => rollback.all (fun b => a.blockHeight ≠ b.index)) := by
  induction rollback with
  | nil => intro acts; simp
  | cons b bs ih =>
    intro acts
    simp only [List.foldl_cons, ih, List.filter_filter, List.all_cons]
    congr 1
    funext a
    rw [Bool.and_comm]

/-- C3: rolling back a list of block identifiers removes exactly the
activity records whose block height equals one of the rolled-back
indices (every other record is kept, in order), and leaves the whole
leaderboard map, the total-fees counter and the total-transactions
counter unchanged. -/
theorem c3_rollback_filters_by_height_only (rollback : List RollbackBlock) (s : HandlerState) :
    (handleRollback rollback s).activities
      = s.activities.filter (fun a => rollback.all (fun b => a.blockHeight ≠ b.index))
    ∧ (handleRollback rollback s).leaderboard = s.leaderboard
    ∧ (handleRollback rollback s).totalFees = s.totalFees
    ∧ (handleRollback rollback s).totalTransactions = s.totalTransactions :=
  ⟨foldl_filter_eq_filter_all rollback s.activities, rfl, rfl, rfl⟩

/-- C4: processing a `reward-claimed` event appends a ledger record
whose point delta is the negative of the spent points and whose fee is
0; the leaderboard change only overwrites the user's tier label with
the event's new tier (entries of other users, and a missing entry for
the user, are untouched), so the user's cumulative point total is
unchanged — the negative delta is never applied to it.  The two
counters are also unchanged. -/
theorem c4_reward_claimed_effects (e : RewardEvent) (txHash : String)
    (blockHeight timestamp : Int) (s : HandlerState) :
    ((handleRewardEvent e txHash blockHeight timestamp s).activities.map
        (fun r => (r.points, r.fee)))
      = s.activities.map (fun r => (r.points, r.fee)) ++ [(-e.points_spent, 0)]
    ∧ (∀ v : String, (handleRewardEvent e txHash blockHeight timestamp s).leaderboard v
        = if v = e.user then
            (s.leaderboard v).map (fun ent => { ent with tier := e.new_tier })
          else s.leaderboard v)
    ∧ ((handleRewardEvent e txHash blockHeight timestamp s).leaderboard e.user).map
        (fun ent => ent.totalPoints) = (s.leaderboard e.user).map (fun ent => ent.totalPoints)
    ∧ (handleRewardEvent e txHash blockHeight timestamp s).totalFees = s.totalFees
    ∧ (handleRewardEvent e txHash blockHeight timestamp s).totalTransactions
        = s.totalTransactions := by
  have hlb : ∀ v : String, (handleRewardEvent e txHash blockHeight timestamp s).leaderboard v
      = if v = e.user then
          (s.leaderboard v).map (fun ent => { ent with tier := e.new_tier })
        else s.leaderboard v := by
    intro v
    unfold handleRewardEvent
    rcases h : s.leaderboard e.user with _ | entry
    · simp only [h]
      by_cases hv : v = e.user
      · subst hv; simp [h]
      · simp [hv]
    · simp only [h, setEntry]
      by_cases hv : v = e.user
      · subst hv; simp [h]
      · simp [hv]
  refine ⟨?_, hlb, ?_, ?_, ?_⟩
  · unfold handleRewardEvent
    rcases h : s.leaderboard e.user with _ | entry <;> simp [h]
  · rw [hlb e.user]
    simp
    rcases s.leaderboard e.user with _ | entry <;> simp
  · unfold handleRewardEvent
    rcases h : s.leaderboard e.user with _ | entry <;> simp [h]
  · unfold handleRewardEvent
    rcases h : s.leaderboard e.user with _ | entry <;> simp [h]

/-- C9 counterexample: with two subscribers on a channel, the first of
which throws, `emit` (Node `EventEmitter` semantics) stops at the
failure: the second subscriber is never invoked, contradicting the
claim that a failing subscriber does not prevent delivery to the
subsequent subscribers. -/
theorem c9_counterexample_failing_subscriber_blocks_delivery :
    emitAll [throwingSubscriber "s1" "boom", loggingSubscriber "s2"] ([] : List String)
      = (["s1"], some "boom")
    ∧ "s2" ∉ (emitAll [throwingSubscriber "s1" "boom", loggingSubscriber "s2"]
        ([] : List String)).1 := by
  exact ⟨rfl, by decide⟩

lemma emitAll_append_loggers (ids : List String) :
    ∀ (rest : List (Subscriber (List String) String)) (w : List String),
      emitAll (ids.map loggingSubscriber ++ rest) w = emitAll rest (w ++ ids) := by
  induction ids with
  | nil => intro rest w; simp
  | cons i is ih =>
    intro rest w
    simp only [List.map_cons, List.cons_append]
    show emitAll (is.map loggingSubscriber ++ rest) (w ++ [i]) = emitAll rest (w ++ i :: is)
    rw [ih]
    simp

/-- C9 (amended): subscribers are invoked synchronously in subscription
order; a subscriber that throws stops `emit` at that point — the
exception propagates and the REMAINING subscribers on the channel are
not invoked (Node `EventEmitter` semantics, contrary to the claimed
isolation) — but the store mutation is unaffected: the handler mutates
the store before publishing, and the dispatch layer's catch swallows a
subscriber exception, so the resulting store state is identical
whatever the subscribers do. -/
theorem c9_amended_emit_order_and_store_isolation :
    (∀ (ids : List String) (w : List String),
        emitAll (ids.map loggingSubscriber) w = (w ++ ids, none))
    ∧ (∀ (ids : List String) (bad err : String)
        (rest : List (Subscriber (List String) String)) (w : List String),
        emitAll (ids.map loggingSubscriber ++ throwingSubscriber bad err :: rest) w
          = (w ++ ids ++ [bad], some err))
    ∧ (∀ (σ : Type) (subs : List (Subscriber σ String)) (now : Int) (e : PulseEvent)
        (txHash : String) (blockHeight timestamp : Int) (s : HandlerState) (w : σ),
        (processPrintEventPulse subs now e txHash blockHeight timestamp s w).1
          = handlePulseEvent now e txHash blockHeight timestamp s) := by
  refine ⟨?_, ?_, ?_⟩
  · intro ids w
    have h := emitAll_append_loggers ids [] w
    simpa using h
  · intro ids bad err rest w
    rw [emitAll_append_loggers]
    simp [emitAll, throwingSubscriber, List.append_assoc]
  · intro σ subs now e txHash blockHeight timestamp s w
    rfl

/-- C10: `getActivities` with limit 0 returns EVERY stored record in
most-recent-first order (JS `slice(-0)` is `slice(0)`, the whole
array); with a positive limit `n` it returns the last
`min n (log length)` records, most-recent-first. -/
theorem c10_getActivities_limit_semantics (acts : List ActivityRecord) :
    getActivities acts 0 = acts.reverse
    ∧ ∀ n : Nat, 0 < n →
        getActivities acts n = (acts.drop (acts.length - n)).reverse
        ∧ (getActivities acts n).length = min n acts.length := by
  constructor
  · simp [getActivities, jsSliceLast]
  · intro n hn
    have hnz : n ≠ 0 := Nat.pos_iff_ne_zero.mp hn
    constructor
    · simp [getActivities, jsSliceLast, hnz]
    · simp [getActivities, jsSliceLast, hnz]
      omega

/-- A sample activity record used to witness the query theorems. -/
def sampleRecord1 : ActivityRecord :=
  { id := "t1-pulse", user := "alice", eventType := "pulse", points := 10, fee := 1
    blockHeight := 100, txHash := "t1", timestamp := 0, metadata := [] }

/-- A second sample activity record. -/
def sampleRecord2 : ActivityRecord :=
  { id := "t2-pulse", user := "bob", eventType := "pulse", points := 20, fee := 2
    blockHeight := 101, txHash := "t2", timestamp := 0, metadata := [] }

/-- Witness for C10 at a concrete two-record log and limit 1. -/
theorem c10_witness :
    getActivities [sampleRecord1, sampleRecord2] 1
      = ([sampleRecord1, sampleRecord2].drop ([sampleRecord1, sampleRecord2].length - 1)).reverse
    ∧ (getActivities [sampleRecord1, sampleRecord2] 1).length
        = min 1 [sampleRecord1, sampleRecord2].length :=
  (c10_getActivities_limit_semantics [sampleRecord1, sampleRecord2]).2 1 (by decide)

/-- C6: whenever the bytes of the (0x-stripped) hex input are not
parseable as UTF-8 JSON text and do not begin with the tuple marker
byte 0x0c, the decoder returns the raw fallback carrying the original
hex string; the decoder itself is a total function, so it returns on
every input without throwing. -/
theorem c6_decode_fallback_raw (tryJson : List Nat → Option JVal) (hexValue : String)
    (h1 : tryJson (hexDecode (strip0x hexValue)) = none)
    (h2 : (hexDecode (strip0x hexValue)).head? ≠ some 0x0c) :
    decodeClarityValue tryJson hexValue = .raw hexValue := by
  simp only [decodeClarityValue, h1]
  rw [if_neg]
  rintro ⟨hl, hh⟩
  apply h2
  rcases hb : hexDecode (strip0x hexValue) with _ | ⟨b, bs⟩
  · rw [hb] at hl; simp at hl
  · rw [hb] at hh
    simp only [List.getD, List.get?, Option.getD] at hh
    simp [hh]

/-- Witness for C6: a non-JSON, non-tuple hex string decodes to the raw
fallback. -/
theorem c6_witness :
    decodeClarityValue (fun _ => none) "abcd" = DecodeResult.raw "abcd" :=
  c6_decode_fallback_raw (fun _ => none) "abcd" rfl (by decide)

/-- A malformed field at offset `off` of the tuple walk, in the claim's
vocabulary: the declared key length, the value-type slot, or the
declared value length runs past the buffer end, or the value-type tag
is unrecognized (only 0x00/0x01, 0x06/0x07 and 0x09 are known). -/
def specFieldMalformed (buf : List Nat) (off : Nat) : Prop :=
  off + 2 > buf.length
  ∨ off + 2 + readU16 buf off > buf.length
  ∨ off + 2 + readU16 buf off ≥ buf.length
  ∨ ((buf.getD (off + 2 + readU16 buf off) 0 = 0x00 ∨ buf.getD (off + 2 + readU16 buf off) 0 = 0x01)
      ∧ off + 2 + readU16 buf off + 1 + 16 > buf.length)
  ∨ ((buf.getD (off + 2 + readU16 buf off) 0 = 0x06 ∨ buf.getD (off + 2 + readU16 buf off) 0 = 0x07)
      ∧ (off + 2 + readU16 buf off + 1 + 2 > buf.length
         ∨ off + 2 + readU16 buf off + 1 + 2 + readU16 buf (off + 2 + readU16 buf off + 1)
             > buf.length))
  ∨ (buf.getD (off + 2 + readU16 buf off) 0 = 0x09
      ∧ off + 2 + readU16 buf off + 1 + 21 > buf.length)
  ∨ (¬(buf.getD (off + 2 + readU16 buf off) 0 = 0x00 ∨ buf.getD (off + 2 + readU16 buf off) 0 = 0x01)
     ∧ ¬(buf.getD (off + 2 + readU16 buf off) 0 = 0x06 ∨ buf.getD (off + 2 + readU16 buf off) 0 = 0x07)
     ∧ buf.getD (off + 2 + readU16 buf off) 0 ≠ 0x09)

lemma parseField_eq_none_iff (buf : List Nat) (off : Nat) :
    parseField buf off = none ↔ specFieldMalformed buf off := by
  unfold parseField specFieldMalformed
  dsimp only
  split_ifs <;> constructor <;> intro h <;>
    first
      | rfl
      | omega
      | (exact absurd h (by simp))
      | (exfalso; omega)

/-- C7: at a field where the declared key or value length runs past the
buffer end or the value-type tag is unrecognized, the tuple walk
terminates and returns exactly the accumulated key-value pairs decoded
before that field (no exception, no error value); the first conjunct
identifies the source's per-field failure conditions with that
description. -/
theorem c7_malformed_field_terminates_walk :
    (∀ (buf : List Nat) (off : Nat), parseField buf off = none ↔ specFieldMalformed buf off)
    ∧ (∀ (buf : List Nat) (fuel off : Nat) (acc : List (String × String)),
        specFieldMalformed buf off → parseTupleLoop buf (fuel + 1) off acc = acc) := by
  constructor
  · exact parseField_eq_none_iff
  · intro buf fuel off acc hmal
    have hnone : parseField buf off = none := (parseField_eq_none_iff buf off).mpr hmal
    unfold parseTupleLoop
    split_ifs with hlt
    · rw [hnone]
    · rfl

/-- The C7 witness buffer: a well-formed ASCII field (`"a" ↦ "x"`)
followed by a field with the unrecognized value-type tag 0xff. -/
def c7WitnessBytes : List Nat :=
  [0x0c, 0x00, 0x02, 0x00, 0x01, 0x61, 0x06, 0x00, 0x01, 0x78, 0x00, 0x01, 0x62, 0xff, 0x00]

/-- Witness for C7: at the unrecognized-tag field (offset 10) the walk
returns the single pair decoded before it. -/
theorem c7_witness :
    parseTupleLoop c7WitnessBytes 1 10 [("a", "x")] = [("a", "x")] :=
  c7_malformed_field_terminates_walk.2 c7WitnessBytes 0 10 [("a", "x")]
    ((parseField_eq_none_iff c7WitnessBytes 10).mp (by decide))

lemma sourceTier_eq (tp d : Int) (t : String) :
    (if tp + d ≥ 5000 then "platinum" else if tp + d ≥ 1000 then "gold"
     else if tp + d ≥ 500 then "silver" else if tp + d ≥ 100 then "bronze" else t)
    = if tp + d ≥ 100 then tierOfPoints (tp + d) else t := by
  unfold tierOfPoints
  split_ifs <;> first | rfl | omega

lemma updateLeaderboard_step (now : Int) (u : String) (d : Int) (s : HandlerState)
    (e : LeaderboardEntry) (h : s.leaderboard u = some e) :
    (updateLeaderboard now u d 0 0 s).leaderboard u = some
      { e with
        totalPoints := e.totalPoints + d
        lastActive := now
        tier := if e.totalPoints + d ≥ 100 then tierOfPoints (e.totalPoints + d) else e.tier } := by
  rw [← sourceTier_eq e.totalPoints d e.tier]
  simp only [updateLeaderboard, h, setEntry, if_true]
  norm_num
  split_ifs <;> first | rfl | omega | simp_all | (exfalso; omega)

lemma updateLeaderboard_step_new (now : Int) (u : String) (d : Int) (s : HandlerState)
    (h : s.leaderboard u = none) :
    (updateLeaderboard now u d 0 0 s).leaderboard u = some
      { user := u, totalPoints := d, totalPulses := 0, currentStreak := 0, longestStreak := 0
        tier := if d ≥ 100 then tierOfPoints d else "none", lastActive := now } := by
  have h0 : (0 : Int) + d = d := by ring
  have hs := sourceTier_eq 0 d "none"
  rw [h0] at hs
  rw [← hs]
  simp only [updateLeaderboard, h, setEntry, if_true]
  norm_num
  split_ifs <;> first | rfl | omega | simp_all | (exfalso; omega)

lemma tier_stays_characterized (tp d : Int) (tier : String) (htier : tier = tierOfPoints tp)
    (hd : 0 ≤ d) :
    (if tp + d ≥ 100 then tierOfPoints (tp + d) else tier) = tierOfPoints (tp + d) := by
  split_ifs with hc
  · rfl
  · rw [htier]
    unfold tierOfPoints
    split_ifs <;> first | rfl | omega

/-- Repeated leaderboard point updates for one user (the scenario of
the tier-threshold claim): fold `updateLeaderboard` over a list of
point deltas with no pulse or streak contribution. -/
def applyPointUpdates (now : Int) (u : String) (ds : List Int) (s : HandlerState) : HandlerState :=
  ds.foldl (fun st d => updateLeaderboard now u d 0 0 st) s

lemma applyPointUpdates_invariant (ds : List Int) :
    ∀ (now : Int) (u : String) (s : HandlerState) (e : LeaderboardEntry),
      s.leaderboard u = some e → e.tier = tierOfPoints e.totalPoints →
      (∀ d ∈ ds, 0 ≤ d) →
      ∃ e2, (applyPointUpdates now u ds s).leaderboard u = some e2
        ∧ e2.totalPoints = e.totalPoints + ds.sum
        ∧ e2.tier = tierOfPoints e2.totalPoints := by
  induction ds with
  | nil =>
    intro now u s e h htier _
    exact ⟨e, by simpa [applyPointUpdates] using h, by simp, htier⟩
  | cons d rest ih =>
    intro now u s e h htier hpos
    have hd : (0 : Int) ≤ d := hpos d (by simp)
    have hstep := updateLeaderboard_step now u d s e h
    have htier1 := tier_stays_characterized e.totalPoints d e.tier htier hd
    have hrest : ∀ x ∈ rest, (0 : Int) ≤ x := fun x hx => hpos x (by simp [hx])
    obtain ⟨e2, he2, hpts, ht2⟩ :=
      ih now u (updateLeaderboard now u d 0 0 s) _ hstep (by simpa using htier1) hrest
    refine ⟨e2, ?_, ?_, ht2⟩
    · simpa [applyPointUpdates] using he2
    · rw [List.sum_cons]
      dsimp only at hpts
      omega

/-- C8: starting from an empty store, any nonempty sequence of
nonnegative point deltas applied through `updateLeaderboard` leaves the
user's tier equal to the fixed-threshold function of the cumulative
total, which maps 99 to `"none"` and exactly 100, 500, 1000, 5000 to
bronze, silver, gold and platinum respectively. -/
theorem c8_tier_thresholds :
    (∀ (now : Int) (u : String) (ds : List Int),
        ds ≠ [] → (∀ d ∈ ds, 0 ≤ d) →
        ((applyPointUpdates now u ds initialState).leaderboard u).map (fun e => e.tier)
          = some (tierOfPoints ds.sum))
    ∧ tierOfPoints 99 = "none" ∧ tierOfPoints 100 = "bronze" ∧ tierOfPoints 500 = "silver"
    ∧ tierOfPoints 1000 = "gold" ∧ tierOfPoints 5000 = "platinum" := by
  refine ⟨?_, by decide, by decide, by decide, by decide, by decide⟩
  intro now u ds hne hpos
  rcases ds with _ | ⟨d, rest⟩
  · exact absurd rfl hne
  have hd : (0 : Int) ≤ d := hpos d (by simp)
  have h0 : initialState.leaderboard u = none := rfl
  have hstep := updateLeaderboard_step_new now u d initialState h0
  have htier1 : (if d ≥ 100 then tierOfPoints d else "none") = tierOfPoints d := by
    have := tier_stays_characterized 0 d "none" (by decide) hd
    simpa using this
  have hrest : ∀ x ∈ rest, (0 : Int) ≤ x := fun x hx => hpos x (by simp [hx])
  obtain ⟨e2, he2, hpts, ht2⟩ :=
    applyPointUpdates_invariant rest now u (updateLeaderboard now u d 0 0 initialState) _
      hstep (by simpa using htier1) hrest
  have : (applyPointUpdates now u (d :: rest) initialState).leaderboard u = some e2 := by
    simpa [applyPointUpdates] using he2
  rw [this]
  show some e2.tier = some (tierOfPoints (d :: rest).sum)
  rw [ht2, hpts, List.sum_cons]

/-- Witness for C8: a single 100-point update from the empty store
yields the tier of a 100-point total. -/
theorem c8_witness :
    ((applyPointUpdates 0 "alice" [100] initialState).leaderboard "alice").map (fun e => e.tier)
      = some (tierOfPoints ([100] : List Int).sum) :=
  c8_tier_thresholds.1 0 "alice" [100] (by decide) (by decide)

/-- C5: the payload shape resolution tries the documented rules in
their fixed order with the first match winning — the resolver equals
the ordered `orElse` chain of the five rule extractors (with the empty
block list as final default) — and in particular a payload carrying
both a top-level apply-block list and a nested `event.apply` list
resolves to the top-level list. -/

theorem c5_shape_resolution_first_match_wins :
    (∀ (now : Int) (p : JVal) (xs ys : List JVal),
        shapeRule1 p = some xs → shapeRule2 p = some ys → resolveApplyBlocks now p = xs)
    ∧ (∀ (now : Int) (p : JVal),
        resolveApplyBlocks now p
          = (((((shapeRule1 p).orElse (fun _ => shapeRule2 p)).orElse
                (fun _ => shapeRule3 p)).orElse
                (fun _ => shapeRule4 now p)).orElse
                (fun _ => shapeRule5 now p)).getD []) := by
  constructor
  · intro now p xs ys h1 _h2
    unfold shapeRule1 at h1
    unfold resolveApplyBlocks
    rw [h1]
  · intro now p
    unfold resolveApplyBlocks shapeRule1 shapeRule2 shapeRule3 shapeRule4 shapeRule5
    rcases h1 : jsArray (jsGet (some p) "apply") with _ | xs <;>
      rcases h2 : jsArray (jsGet (jsGet (some p) "event") "apply") with _ | ys <;>
        rcases h3 : jsArray (jsGet (jsGet (some p) "event") "blocks") with _ | zs <;>
          rcases hev : jsGet (some p) "event" with _ | ev <;>
            simp_all [Option.orElse, Option.bind] <;>
              by_cases hg : truthyV ev = true ∧ jsTypeofObject ev = true <;>
                by_cases htx : (truthy (jsGet (some ev) "transaction_identifier") = true
                    ∨ truthy (jsGet (some ev) "transaction") = true)
                    ∨ truthy (jsGet (some ev) "metadata") = true <;>
                  by_cases hcl : truthy (jsGet (some ev) "contract_log") = true <;>
                    simp_all [Option.orElse, Option.bind] <;>
                      split_ifs <;> simp_all [Option.orElse]

/-- The C5 witness payload: both a top-level `apply` list and a nested
`event.apply` list are present. -/
def c5Payload : JVal :=
  .obj [("apply", .arr [.str "top-level-block"]),
        ("event", .obj [("apply", .arr [.str "nested-block"])])]

/-- Witness for C5: with both lists present, the top-level list wins. -/
theorem c5_witness :
    resolveApplyBlocks 0 c5Payload = [JVal.str "top-level-block"] :=
  c5_shape_resolution_first_match_wins.1 0 c5Payload [JVal.str "top-level-block"]
    [JVal.str "nested-block"] rfl rfl

end ChainPulse
